import Mathlib

/-!
Verification development for the skill-bridge repository: a shallow
embedding of the CV-analysis and roadmap pipelines (model-gateway failover,
document extraction, structured extraction, skill injection, skill
verification, roadmap generation) together with theorems about the
embedded definitions.
-/

/-! # Outcome model for one call to the external text-generation service

Each attempt `genai.GenerativeModel(name).generate_content(prompt)` either
returns a response whose `.text` is some string, or raises an exception.
The source classifies exceptions into the transient group
(`ResourceExhausted`, `ServiceUnavailable`), the permanent group
(`NotFound`, `PermissionDenied`, `InvalidArgument`, sometimes `ValueError`),
and everything else.  An environment `env : Nat → CallOutcome` gives the
outcome of the k-th call issued during one `generate` invocation. -/

inductive CallOutcome where
  | success (text : String)
  | transient
  | permanent
  | other

def CallOutcome.isSuccess : CallOutcome → Bool
  | .success _ => true
  | _ => false

/-- Shared loop shape of the three gateway variants: walk the priority
list, one call per model; return the first successful text, threading the
index of the next call to issue.  (Each variant's `except` arms only differ
in which sleep they perform, which has no observable effect here: every
non-success outcome falls through to `continue`.) -/
def tryModels (env : Nat → CallOutcome) : Nat → List String → Option String × Nat
  | k, [] => (none, k)
  | k, _ :: rest =>
    match env k with
    | .success t => (some t, k + 1)
    | _ => tryModels env (k + 1) rest

namespace GapEngine

/-- `MODEL_PRIORITY_LIST` from gap_analysis_engine.py. -/
def MODEL_PRIORITY_LIST : List String :=
  [ "models/gemini-2.0-flash-lite",
    "models/gemini-2.0-flash",
    "models/gemini-flash-latest",
    "models/gemini-2.0-flash-exp",
    "models/gemini-pro-latest" ]

/-- `generate_safe` from gap_analysis_engine.py, generalised over the model
list it walks (the source reads the module constant `MODEL_PRIORITY_LIST`).
Loop over the models catching every exception; afterwards sleep 60s and
retry "models/gemini-flash-latest" once, re-raising a `RuntimeError` if the
final retry also fails.  The result carries the number of calls issued. -/
def generate_safe_over (env : Nat → CallOutcome) (models : List String)
    ( _prompt : String) : Except String String × Nat :=
  match tryModels env 0 models with
  | (some t, k) => (.ok t, k)
  | (none, k) =>
    match env k with
    | .success t => (.ok t, k + 1)
    | _ => (.error "Final retry failed", k + 1)

/-- `generate_safe` as called in the source: over `MODEL_PRIORITY_LIST`. -/
def generate_safe (env : Nat → CallOutcome) (prompt : String) :
    Except String String × Nat :=
  generate_safe_over env MODEL_PRIORITY_LIST prompt

end GapEngine

namespace SkillVerifier

/-- `self.model_priority` set in `SkillVerifier.__init__`. -/
def model_priority : List String :=
  [ "models/gemini-2.0-flash-lite",
    "models/gemini-2.0-flash",
    "models/gemini-flash-latest",
    "models/gemini-pro-latest" ]

/-- `SkillVerifier._get_gemini_response`, generalised over the priority
list (`self.model_priority` in the source).  Loop over the models catching
every exception; afterwards sleep 60s and make one final attempt on
"models/gemini-2.0-flash-lite"; if that attempt also raises, print the
error and return the empty string. -/
def get_gemini_response_over (env : Nat → CallOutcome) (models : List String)
    ( _prompt : String) : Except String String × Nat :=
  match tryModels env 0 models with
  | (some t, k) => (.ok t, k)
  | (none, k) =>
    match env k with
    | .success t => (.ok t, k + 1)
    | _ => (.ok "", k + 1)

/-- `_get_gemini_response` as called in the source: over `model_priority`. -/
def get_gemini_response (env : Nat → CallOutcome) (prompt : String) :
    Except String String × Nat :=
  get_gemini_response_over env model_priority prompt

end SkillVerifier

namespace CVGenerator

/-- `self.model_priority` set in `CVGenerator.__init__`. -/
def model_priority : List String :=
  [ "models/gemini-2.0-flash",
    "models/gemini-2.0-flash-lite",
    "models/gemini-flash-latest",
    "models/gemini-pro" ]

/-- `CVGenerator._get_gemini_response`, generalised over the priority list
(`self.model_priority` in the source).  Loop over the models catching every
exception; afterwards sleep 60s and call "models/gemini-2.0-flash-lite"
outside any try block, so a failure of the final call propagates as an
uncaught exception to the caller. -/
def get_gemini_response_over (env : Nat → CallOutcome) (models : List String)
    ( _prompt : String) : Except String String × Nat :=
  match tryModels env 0 models with
  | (some t, k) => (.ok t, k)
  | (none, k) =>
    match env k with
    | .success t => (.ok t, k + 1)
    | _ => (.error "uncaught exception from final attempt", k + 1)

/-- `_get_gemini_response` as called in the source: over `model_priority`. -/
def get_gemini_response (env : Nat → CallOutcome) (prompt : String) :
    Except String String × Nat :=
  get_gemini_response_over env model_priority prompt

end CVGenerator

/-! # A small JSON value model (for `json.loads` results) -/

inductive Json where
  | null
  | bool (b : Bool)
  | num (n : Int)
  | str (s : String)
  | arr (elems : List Json)
  | obj (fields : List (String × Json))

/-- Python dict read `d[k]` / `d.get(k)`: first binding of the key. -/
def getKey (d : List (String × Json)) (k : String) : Option Json :=
  match d with
  | [] => none
  | (k2, v) :: rest => if k2 = k then some v else getKey rest k

/-- Python dict write `d[k] = v`: replace the binding if the key is
present, otherwise append it. -/
def setKey (d : List (String × Json)) (k : String) (v : Json) :
    List (String × Json) :=
  match d with
  | [] => [(k, v)]
  | (k2, w) :: rest => if k2 = k then (k, v) :: rest else (k2, w) :: setKey rest k v

/-- `k in d` on a Python dict. -/
def hasKey (d : List (String × Json)) (k : String) : Bool :=
  (getKey d k).isSome

/-- A Python list of strings read out of a JSON value; `none` models the
`AttributeError` / `TypeError` Python raises when iterating something that
is not a list of strings. -/
def asStrList : List Json → Option (List String)
  | [] => some []
  | .str s :: rest => (asStrList rest).map (fun l => s :: l)
  | _ => none

def jsonStrList : Json → Option (List String)
  | .arr l => asStrList l
  | _ => none

/-- Python `s.strip()`: remove leading and trailing whitespace. -/
def pyStrip (s : String) : String :=
  String.mk (((s.data.dropWhile Char.isWhitespace).reverse.dropWhile
    Char.isWhitespace).reverse)

/-- Python `s.lower()` (ASCII case folding). -/
def pyLower (s : String) : String :=
  String.mk (s.data.map Char.toLower)

/-- Python `s.endswith(suf)`. -/
def pyEndsWith (s suf : String) : Bool :=
  suf.data.isSuffixOf s.data

/-- Python `s.startswith(pre)`. -/
def pyStartsWith (s pre : String) : Bool :=
  pre.data.isPrefixOf s.data

/-- Python `text.split('\n')` on the character list. -/
def splitOnNl : List Char → List (List Char)
  | [] => [[]]
  | c :: rest =>
    if c = '\n' then [] :: splitOnNl rest
    else
      match splitOnNl rest with
      | [] => [[c]]
      | l :: ls => (c :: l) :: ls

/-- Python `text.split('\n')`. -/
def splitLines (s : String) : List String :=
  (splitOnNl s.data).map String.mk

/-- Boolean substring test, modelling Python `needle in hay`. -/
def containsSub (needle hay : String) : Bool :=
  hay.data.tails.any (fun t => needle.data.isPrefixOf t)

/-- `mapM id` over `Option`: Python raising on the first `None` element. -/
def allSome : List (Option α) → Option (List α)
  | [] => some []
  | some x :: rest => (allSome rest).map (fun l => x :: l)
  | none :: _ => none

/-- Python `s.lstrip(chars)`: drop leading characters from the set. -/
def lstripSet (cs : List Char) (s : String) : String :=
  String.mk (s.data.dropWhile (fun c => cs.contains c))

/-- The markdown-fence cleanup shared by several stages:
`raw.replace("```json", "").replace("```", "").strip()`. -/
def stripFences (raw : String) : String :=
  pyStrip ((raw.replace "```json" "").replace "```" "")

/-! # The shared workflow state (`GapAnalysisState` TypedDict)

A Python dict whose keys may each be absent; every field is therefore an
`Option`.  `user_name` is stored as a JSON value: the source writes
whatever `structured_data.get('name', ...)` returns. -/

structure GapState where
  cv_file_path : Option String
  job_title : Option String
  cv_text : Option String
  job_requirements : Option String
  skill_report : Option Json
  pdf_path : Option String
  structured_cv_data : Option Json
  user_name : Option Json
  new_skills_to_add : Option (List String)
  skills_for_roadmap : Option (List String)
  template_selection : Option String
  final_cv_tex_path : Option String

/-- The empty dict: a freshly returned partial update starts from here. -/
def GapState.empty : GapState :=
  ⟨none, none, none, none, none, none, none, none, none, none, none, none⟩

/-- Errors a stage can raise (the Python exception kinds that matter to the
spec claims). -/
inductive NodeError where
  | attrError
  | readFailure (msg : String)
  | unsupportedFormat
  | emptyContent

/-- Read outcomes of the file system, as the nodes observe them:
`txt path` is the UTF-8 contents of the file (`none` models an exception
from `open`/`read`); `pdf path` is the per-page `extract_text()` results
(`none` models a `PdfReader` failure, a `none` page a page with no text). -/
structure FileSys where
  txt : String → Option String
  pdf : String → Option (List (Option String))

namespace NlpAnalyzer

/-- `cv_reader_node` from nlp_analyzer.py.  Dispatch on the lower-cased
extension: `.txt` reads the whole file (any failure re-raised as
`RuntimeError`); `.pdf` concatenates `page.extract_text() or ""` over the
pages and raises if the result is whitespace-only (a `ValueError` wrapped
into the surrounding `RuntimeError`); any other extension raises
`ValueError: Unsupported file type`.  Returns the partial update
`{"cv_text": cv_text}`. -/
def cv_reader_node (fs : FileSys) (st : GapState) : Except NodeError GapState :=
  match st.cv_file_path with
  | none => .error .attrError
  | some path =>
    if pyEndsWith (pyLower path) ".txt" then
      match fs.txt path with
      | some s => .ok { GapState.empty with cv_text := some s }
      | none => .error (.readFailure "Failed to read TXT file")
    else if pyEndsWith (pyLower path) ".pdf" then
      match fs.pdf path with
      | none => .error (.readFailure "Failed to read PDF file")
      | some pages =>
        let t := String.join (pages.map (fun p => p.getD ""))
        if pyStrip t = "" then
          .error (.readFailure "PDF opened but no text could be extracted")
        else .ok { GapState.empty with cv_text := some t }
    else .error .unsupportedFormat

/-- The guard at the top of `extract_data_node`:
`if not cv_text or len(cv_text.strip()) < 50: raise RuntimeError(...)`. -/
def cvTextGuard (t : String) : Except NodeError String :=
  if t = "" ∨ (pyStrip t).length < 50 then .error .emptyContent else .ok t

/-- The document-extraction pipeline the spec calls `DocumentPipeline.extract`:
`cv_reader_node` followed by the minimum-content guard of
`extract_data_node`, applied to an initial state holding only the path. -/
def document_extract (fs : FileSys) (path : String) : Except NodeError String :=
  match cv_reader_node fs { GapState.empty with cv_file_path := some path } with
  | .error e => .error e
  | .ok upd =>
    match upd.cv_text with
    | some t => cvTextGuard t
    | none => .error (.readFailure "missing cv_text")

/-- The prompt built in `extract_data_node` around the raw CV text and
`CV_SCHEMA` (braces of the schema text written as escapes). -/
def extractDataPrompt (cv_text : String) : String :=
  "\n    You are an expert CV parser. Analyze the following raw CV text and extract all \n    relevant fields into a structured JSON object. The JSON MUST strictly follow this schema.\n    \n    SCHEMA: \n\x7b\n  \"name\": \"...\",\n  \"summary\": \"...\",\n  \"experience\": [\n    \x7b\"title\": \"...\", \"company\": \"...\", \"dates\": \"...\", \"description\": \"...\"\x7d\n  ],\n  \"skills\": [\"...\", \"...\"],\n  \"education\": [\"...\"]\n\x7d\n\n    \n    RAW CV TEXT:\n    ---\n    "
    ++ cv_text ++
    "\n    ---\n    \n    CRITICAL INSTRUCTION: Return ONLY the raw JSON object. Do not include markdown (```json) or any other formatting.\n    "

/-- `extract_data_node` from nlp_analyzer.py.  Guard the raw text, call the
single model `models/gemini-2.5-flash` (no failover here), strip fences,
parse JSON; on success return the partial update
`{"structured_cv_data": ..., "user_name": ...}`; any failure inside the
`try` block (parse error, or `.get` on a non-dict) is re-raised as a
`RuntimeError`.  `callModel` models `model.generate_content(prompt).text`
and `parse` models `json.loads`. -/
def extract_data_node (callModel : String → Except String String)
    (parse : String → Option Json) (st : GapState) : Except NodeError GapState :=
  match st.cv_text with
  | none => .error .emptyContent
  | some t =>
    if t = "" ∨ (pyStrip t).length < 50 then .error .emptyContent
    else
      match callModel (extractDataPrompt t) with
      | .error msg => .error (.readFailure msg)
      | .ok respText =>
        match parse (stripFences (pyStrip respText)) with
        | some (Json.obj fields) =>
          .ok { GapState.empty with
                structured_cv_data := some (Json.obj fields),
                user_name := some ((getKey fields "name").getD (Json.str "Unknown_Candidate")) }
        | some _ => .error (.readFailure "LLM failed to generate valid structured CV JSON")
        | none => .error (.readFailure "LLM failed to generate valid structured CV JSON")

end NlpAnalyzer

namespace GapEngine

/-- `JOB_REQ_PROMPT.format(job_title=...)` from gap_analysis_engine.py. -/
def jobReqPrompt (job_title : String) : String :=
  "\nAs a senior technical recruiter, generate a detailed set of requirements\nfor the job title: \""
    ++ job_title ++
    "\".\n\nReturn a structured format with three sections:\n\n1. Key Responsibilities\n2. Required Technical Skills\n3. Essential Soft Skills\n"

/-- `generate_job_requirements_node` from gap_analysis_engine.py: read
`state["job_title"]` (a `KeyError` if absent), call `generate_safe`, write
`state["job_requirements"] = response.text.strip()` into the shared dict
and return the whole mutated state. -/
def generate_job_requirements_node (env : Nat → CallOutcome) (st : GapState) :
    Except String GapState :=
  match st.job_title with
  | none => .error "KeyError: job_title"
  | some title =>
    match (generate_safe env (jobReqPrompt title)).1 with
    | .error e => .error e
    | .ok t => .ok { st with job_requirements := some (pyStrip t) }

end GapEngine

namespace CVGenerator

/-- `CV_STRUCTURING_PROMPT.format(cv_text=...)` from cv_generator.py
(braces of the embedded JSON schema written as escapes). -/
def cvStructuringPrompt (cv_text : String) : String :=
  "\nYou are an expert Resume Parser. \nConvert the provided CV Text into a strict JSON object that matches the schema below perfectly.\nThe JSON will be used to populate a LaTeX template.\n\nJSON SCHEMA:\n\x7b\n  \"personal_info\": \x7b\n    \"name\": \"Full Name\",\n    \"location\": \"City, Country\",\n    \"phone\": \"Phone Number\",\n    \"email\": \"Email Address\",\n    \"linkedin\": \"LinkedIn URL\",\n    \"github\": \"GitHub URL\"\n  \x7d,\n  \"summary\": \"A professional summary (2-3 sentences max).\",\n  \"skills\": [\"Skill 1\", \"Skill 2\", \"Skill 3\", \"Skill 4\", \"Skill 5\"],\n  \"education\": [\n    \x7b \n      \"degree\": \"Degree Name\", \n      \"institution\": \"University Name\", \n      \"year\": \"Year\", \n      \"details\": \"GPA/Honors\" \n    \x7d\n  ],\n  \"experience\": [\n    \x7b \n      \"company\": \"Company Name\", \n      \"role\": \"Job Title\", \n      \"duration\": \"Dates\", \n      \"location\": \"City\", \n      \"bullets\": [\"Achievement 1\", \"Achievement 2\"] \n    \x7d\n  ],\n  \"projects\": [\n    \x7b \n      \"name\": \"Project Title\", \n      \"description\": \"Tech stack and impact.\" \n    \x7d\n  ],\n  \"leadership\": [\n     \x7b \n       \"role\": \"Role Name\", \n       \"description\": \"Responsibility.\" \n     \x7d\n  ]\n\x7d\n\nIf a field is missing, use empty strings or empty lists. Do not invent data.\n\nCV TEXT:\n"
    ++ cv_text ++ "\n"

/-- The hard-coded fallback dict returned by `extract_structured_data` when
anything in its `try` block raises. -/
def fallbackProfile : Json :=
  Json.obj
    [ ("personal_info", Json.obj [("name", Json.str "Error Parsing Data")]),
      ("skills", Json.arr []),
      ("education", Json.arr []),
      ("experience", Json.arr []),
      ("projects", Json.arr []),
      ("leadership", Json.arr []) ]

/-- `CVGenerator.extract_structured_data`: format the structuring prompt,
call `_get_gemini_response`, strip markdown fences, `json.loads`; on any
exception (a failed final model attempt, or a JSON parse error) return the
fallback dict.  `parse` models `json.loads` (`none` = `JSONDecodeError`). -/
def extract_structured_data (env : Nat → CallOutcome)
    (parse : String → Option Json) (cv_text : String) : Json :=
  match (get_gemini_response env (cvStructuringPrompt cv_text)).1 with
  | .error _ => fallbackProfile
  | .ok raw =>
    match parse (stripFences raw) with
    | some j => j
    | none => fallbackProfile

/-- The skills list produced by the injection loop of
`inject_missing_skills`: `current_skills_lower` is computed once from the
existing list, then every new skill whose lower-casing is not in that fixed
list is appended in order. -/
def injectedSkills (skills new_skills : List String) : List String :=
  let current := skills.map pyLower
  skills ++ new_skills.filter (fun s => !(current.contains (pyLower s)))

/-- `CVGenerator.inject_missing_skills` on the profile dict: return the
dict unchanged when `new_skills` is empty; ensure the `"skills"` key exists
(defaulting to `[]`); iterate the existing skills (a `TypeError` /
`AttributeError`, modelled as `none`, if they are not a list of strings);
append the deduplicated new skills in place. -/
def inject_missing_skills (d : List (String × Json)) (new_skills : List String) :
    Option (List (String × Json)) :=
  if new_skills.isEmpty then some d
  else
    let d1 := if hasKey d "skills" then d else setKey d "skills" (Json.arr [])
    match (getKey d1 "skills").bind jsonStrList with
    | none => none
    | some skills =>
      some (setKey d1 "skills"
        (Json.arr ((injectedSkills skills new_skills).map Json.str)))

end CVGenerator

namespace SkillVerifier

/-- Scan for the closing parenthesis of a regex match of
`\s*\(.*?\)`: the lazy `.*?` matches any characters except a newline up to
the first `)`.  Returns the characters after that `)`. -/
def findCloseParen : List Char → Option (List Char)
  | [] => none
  | c :: rest =>
    if c = ')' then some rest
    else if c = '\n' then none
    else findCloseParen rest

/-- `re.sub(r'\s*\(.*?\)', '', raw_skill)`, recursing on an explicit fuel
bound (the list length, which strictly decreases at every step, so the
zero-fuel arm is never reached from `reSubParens`): scanning left to right,
each non-overlapping match — a greedy run of whitespace followed by a
parenthesised group closed before any newline — is deleted. -/
def reSubParensFuel : Nat → List Char → List Char
  | 0, l => l
  | _, [] => []
  | fuel + 1, c :: rest =>
    match (c :: rest).dropWhile Char.isWhitespace with
    | '(' :: tail =>
      match findCloseParen tail with
      | some rest2 => reSubParensFuel fuel rest2
      | none => c :: reSubParensFuel fuel rest
    | _ => c :: reSubParensFuel fuel rest

def reSubParens (l : List Char) : List Char :=
  reSubParensFuel l.length l

end SkillVerifier

namespace SkillVerifier

/-- The per-line loop of `extract_missing_skills_from_pdf`: start capturing
after a line containing "Missing Skills", stop at a line starting with
"Summary" or "Matching", and while capturing collect each bullet line —
stripped of bullet characters and parenthetical explanations — that is
non-empty and shorter than 50 characters. -/
def extractSkillsLoop (capture : Bool) : List String → List String
  | [] => []
  | line :: rest =>
    let cl := pyStrip line
    if containsSub "Missing Skills" cl && !capture then extractSkillsLoop true rest
    else if capture && (pyStartsWith cl "Summary" || pyStartsWith cl "Matching") then []
    else if capture then
      if pyStartsWith cl "-" || pyStartsWith cl "•" then
        let raw_skill := pyStrip (lstripSet ['-', '•', ' '] cl)
        let simple_skill := pyStrip (String.mk (reSubParens raw_skill.data))
        if simple_skill ≠ "" && simple_skill.length < 50 then
          simple_skill :: extractSkillsLoop capture rest
        else extractSkillsLoop capture rest
      else extractSkillsLoop capture rest
    else extractSkillsLoop capture rest

/-- `SkillVerifier.extract_missing_skills_from_pdf`: return `[]` when the
path does not exist, the reader fails, or a page yields `None` (the
`text += page.extract_text() + "\n"` line then raises a `TypeError` caught
by the blanket handler); otherwise join the page texts with newlines, split
into lines, run the capture loop and keep only the first 4 skills. -/
def extract_missing_skills_from_pdf (pathExists : Bool)
    (pages : Option (List (Option String))) : List String :=
  if !pathExists then []
  else
    match pages with
    | none => []
    | some ps =>
      match allSome ps with
      | none => []
      | some texts =>
        let text := String.join (texts.map (fun s => s ++ "\n"))
        (extractSkillsLoop false (splitLines text)).take 4

/-- Python `str` of a list of strings, as interpolated by the f-string in
`generate_questions`. -/
def pyListRepr (l : List String) : String :=
  "[" ++ String.intercalate ", " (l.map (fun s => "'" ++ s ++ "'")) ++ "]"

/-- The f-string prompt of `generate_questions` around the full
`missing_skills` list (schema braces written as escapes). -/
def questionPrompt (missing_skills : List String) : String :=
  "\n        You are a Technical Recruiter. A candidate is missing these skills: "
    ++ pyListRepr missing_skills ++
    ".\n        \n        Generate a very short, crisp question for each skill.\n        The question format should strictly be: \"Do you have experience with [Skill Name]?\"\n        \n        Return a strict JSON list of objects matching this schema exactly:\n        [\n            \x7b\n                \"skill\": \"Skill Name\",\n                \"question\": \"Do you have experience with [Skill Name]?\",\n                \"options\": [\n                    \"1. Yes\",\n                    \"2. No\"\n                ]\n            \x7d\n        ]\n        \n        Do not output markdown formatting. Return only the raw JSON list.\n        "

/-- `SkillVerifier.generate_questions`: empty input short-circuits to `[]`;
otherwise one gateway call carries every missing skill in its prompt, the
response is fence-stripped and `json.loads`-parsed, and the parsed value is
returned as-is (so the number of questions is whatever the model produced —
no cap is applied here); an empty response or a parse error yields `[]`. -/
def generate_questions (env : Nat → CallOutcome) (parse : String → Option Json)
    (missing_skills : List String) : Json :=
  if missing_skills.isEmpty then Json.arr []
  else
    match (get_gemini_response env (questionPrompt missing_skills)).1 with
    | .error _ => Json.arr []
    | .ok raw_text =>
      if raw_text = "" then Json.arr []
      else
        match parse (stripFences raw_text) with
        | some j => j
        | none => Json.arr []

end SkillVerifier

/-- Python `str`/`repr` of a JSON-like value, as an f-string renders it. -/
def pyRepr : Json → String
  | .null => "None"
  | .bool true => "True"
  | .bool false => "False"
  | .num n => toString n
  | .str s => "'" ++ s ++ "'"
  | .arr l => "[" ++ String.intercalate ", " (l.attach.map (fun x => pyRepr x.1)) ++ "]"
  | .obj l =>
    "\x7b" ++
      String.intercalate ", "
        (l.attach.map (fun kv => "'" ++ kv.1.1 ++ "': " ++ pyRepr kv.1.2))
      ++ "\x7d"
decreasing_by
  · have := List.sizeOf_lt_of_mem x.2
    simp at *
    omega
  · obtain ⟨⟨a, b⟩, hmem⟩ := kv
    have := List.sizeOf_lt_of_mem hmem
    simp at *
    omega

namespace RoadmapMvp

/-- `RoadmapState` from roadmap_mvp_state.py (dict keys may be absent). -/
structure RoadmapState where
  skills_to_learn : Option (List String)
  raw_search_data : Option Json
  final_roadmap_json : Option Json

/-- The partial update a roadmap node returns: `generator_node` only ever
returns a dict with the single key `final_roadmap_json`. -/
structure RoadmapUpdate where
  final_roadmap_json : Json

/-- `ROADMAP_PROMPT.format(skills=..., search_data=...)` from
generator_node.py (schema braces written as escapes). -/
def roadmapPrompt (skills : List String) (search_data : Json) : String :=
  "\nYou are a Career Coach.\nThe user wants to learn these skills: "
    ++ SkillVerifier.pyListRepr skills ++
    ".\nWe have found some potential search links (simulated): "
    ++ pyRepr search_data ++
    ".\n\nCreate a structured learning roadmap in JSON format.\nThe JSON must have this structure:\n\x7b\n    \"roadmap_title\": \"...\",\n    \"modules\": [\n        \x7b\n            \"skill\": \"Skill Name\",\n            \"week\": 1,\n            \"topic\": \"...\",\n            \"recommended_action\": \"...\",\n            \"resources\": [\"Link 1\", \"Link 2\"]\n        \x7d\n    ]\n\x7d\n\nReturn ONLY valid JSON. No markdown.\n"

/-- The response cleanup inside `generator_node`'s `try` block:
`raw_text = response.text.strip()`, then strip the markdown fence markers
when the text starts with one. -/
def cleanRoadmapFences (t : String) : String :=
  let raw := pyStrip t
  if pyStartsWith raw "```json" then pyStrip ((raw.replace "```json" "").replace "```" "")
  else if pyStartsWith raw "```" then pyStrip (raw.replace "```" "")
  else raw

/-- `generator_node` from generator_node.py: read the two inputs with
defaults (`state.get("skills_to_learn", [])`, `state.get("raw_search_data",
{})`), build the prompt, and inside one `try` block call the model, strip
the fence markers when the response starts with one, and `json.loads` the
result; the `except Exception` arm turns any failure into the update
`{"final_roadmap_json": {"error": str(e)}}`.  `callModel` models
`model.generate_content(prompt).text` (`.error e` = any exception, whose
`str` is `e`); `parse` models `json.loads` the same way. -/
def generator_node (callModel : String → Except String String)
    (parse : String → Except String Json) (st : RoadmapState) : RoadmapUpdate :=
  let skills := st.skills_to_learn.getD []
  let search_data := st.raw_search_data.getD (Json.obj [])
  let prompt := roadmapPrompt skills search_data
  match callModel prompt with
  | .error e => { final_roadmap_json := Json.obj [("error", Json.str e)] }
  | .ok t =>
    match parse (cleanRoadmapFences t) with
    | .ok j => { final_roadmap_json := j }
    | .error e => { final_roadmap_json := Json.obj [("error", Json.str e)] }

end RoadmapMvp

/-! # Helper lemmas -/

theorem pyStrip_length_le (s : String) : (pyStrip s).length ≤ s.length := by
  have h2 : (s.data.dropWhile Char.isWhitespace).length ≤ s.data.length :=
    (List.dropWhile_sublist _).length_le
  have h1 : ((s.data.dropWhile Char.isWhitespace).reverse.dropWhile
      Char.isWhitespace).length ≤ (s.data.dropWhile Char.isWhitespace).reverse.length :=
    (List.dropWhile_sublist _).length_le
  simp only [pyStrip, String.length, List.length_reverse] at *
  omega

theorem tryModels_snd_le (env : Nat → CallOutcome) :
    ∀ (models : List String) (k : Nat),
      (tryModels env k models).2 ≤ k + models.length := by
  intro models
  induction models with
  | nil => intro k; simp [tryModels]
  | cons m rest ih =>
    intro k
    have hrec := ih (k + 1)
    cases h : env k <;>
      simp only [tryModels, h, List.length_cons] <;>
      omega

theorem tryModels_all_fail (env : Nat → CallOutcome)
    (h : ∀ k, (env k).isSuccess = false) :
    ∀ (models : List String) (k : Nat),
      tryModels env k models = (none, k + models.length) := by
  intro models
  induction models with
  | nil => intro k; simp [tryModels]
  | cons m rest ih =>
    intro k
    cases hk : env k with
    | success t =>
      have := h k
      rw [hk] at this
      simp [CallOutcome.isSuccess] at this
    | transient =>
      simp only [tryModels, hk, ih (k + 1), List.length_cons, Prod.mk.injEq, true_and]
      omega
    | permanent =>
      simp only [tryModels, hk, ih (k + 1), List.length_cons, Prod.mk.injEq, true_and]
      omega
    | other =>
      simp only [tryModels, hk, ih (k + 1), List.length_cons, Prod.mk.injEq, true_and]
      omega

/-! # Claims about the model gateway -/

/-- C1: for every prompt and every priority list of N model identifiers, a
single generate invocation — in any of its three variants — issues at most
N + 1 model calls: one attempt per model in the list, tried in order, plus
at most one final fallback attempt after the long cooldown. -/
theorem gateway_attempts_at_most_priority_succ (env : Nat → CallOutcome)
    (models : List String) (prompt : String) :
    (GapEngine.generate_safe_over env models prompt).2 ≤ models.length + 1 ∧
    (SkillVerifier.get_gemini_response_over env models prompt).2 ≤ models.length + 1 ∧
    (CVGenerator.get_gemini_response_over env models prompt).2 ≤ models.length + 1 := by
  have hk := tryModels_snd_le env models 0
  rcases h : tryModels env 0 models with ⟨r, k⟩
  rw [h] at hk
  simp only [Nat.zero_add] at hk
  refine ⟨?_, ?_, ?_⟩ <;>
    simp only [GapEngine.generate_safe_over, SkillVerifier.get_gemini_response_over,
      CVGenerator.get_gemini_response_over, h] <;>
    cases r <;>
    cases henv : env k <;>
    simp [henv] <;>
    omega

/-- C2 counterexample: with every call failing (all transient), the
SkillVerifier gateway variant cited by the claim does not surface a fatal
error — it returns the empty string as a normal value. -/
theorem skill_verifier_exhaustion_returns_empty_not_error :
    (SkillVerifier.get_gemini_response (fun _ => CallOutcome.transient) "p").1
      = Except.ok "" := by
  rfl

/-- C2 amended: when every model in the list fails and the post-cooldown
fallback attempt also fails, `generate_safe` (gap engine) raises the final
`RuntimeError` and `CVGenerator._get_gemini_response` lets the exception
propagate, but `SkillVerifier._get_gemini_response` instead returns the
empty string as a normal value (its callers treat `""` as failure). -/
theorem gateway_exhaustion_per_variant (env : Nat → CallOutcome)
    (h : ∀ k, (env k).isSuccess = false) (prompt : String) :
    (GapEngine.generate_safe env prompt).1 = .error "Final retry failed" ∧
    (CVGenerator.get_gemini_response env prompt).1
      = .error "uncaught exception from final attempt" ∧
    (SkillVerifier.get_gemini_response env prompt).1 = .ok "" := by
  have hall := tryModels_all_fail env h
  refine ⟨?_, ?_, ?_⟩
  · simp only [GapEngine.generate_safe, GapEngine.generate_safe_over, hall,
      Nat.zero_add]
    cases henv : env GapEngine.MODEL_PRIORITY_LIST.length with
    | success t =>
      have hs := h GapEngine.MODEL_PRIORITY_LIST.length
      rw [henv] at hs
      simp [CallOutcome.isSuccess] at hs
    | transient => simp [henv]
    | permanent => simp [henv]
    | other => simp [henv]
  · simp only [CVGenerator.get_gemini_response, CVGenerator.get_gemini_response_over,
      hall, Nat.zero_add]
    cases henv : env CVGenerator.model_priority.length with
    | success t =>
      have hs := h CVGenerator.model_priority.length
      rw [henv] at hs
      simp [CallOutcome.isSuccess] at hs
    | transient => simp [henv]
    | permanent => simp [henv]
    | other => simp [henv]
  · simp only [SkillVerifier.get_gemini_response,
      SkillVerifier.get_gemini_response_over, hall, Nat.zero_add]
    cases henv : env SkillVerifier.model_priority.length with
    | success t =>
      have hs := h SkillVerifier.model_priority.length
      rw [henv] at hs
      simp [CallOutcome.isSuccess] at hs
    | transient => simp [henv]
    | permanent => simp [henv]
    | other => simp [henv]

/-- C2 amended claim witness. -/
theorem gateway_exhaustion_per_variant_witness :
    (GapEngine.generate_safe (fun _ => CallOutcome.transient) "p").1
        = .error "Final retry failed" ∧
    (CVGenerator.get_gemini_response (fun _ => CallOutcome.transient) "p").1
        = .error "uncaught exception from final attempt" ∧
    (SkillVerifier.get_gemini_response (fun _ => CallOutcome.transient) "p").1
        = .ok "" :=
  gateway_exhaustion_per_variant (fun _ => CallOutcome.transient)
    (fun _ => rfl) "p"

/-- C3 counterexample: a first call that completes without an exception but
returns whitespace-only text is surfaced as the successful result after a
single call; the gateway does not move on to the next model. -/
theorem whitespace_response_accepted_as_success :
    GapEngine.generate_safe (fun _ => CallOutcome.success "   ") "p"
      = (Except.ok "   ", 1) := by
  rfl

/-- C3 amended: none of the gateway variants inspects the response text: a
call that completes without an exception is returned verbatim as the
success — even when its text is empty or whitespace-only — and no further
model is tried. -/
theorem first_response_returned_verbatim (env : Nat → CallOutcome)
    (m : String) (rest : List String) (prompt t : String)
    (h0 : env 0 = CallOutcome.success t) :
    GapEngine.generate_safe_over env (m :: rest) prompt = (.ok t, 1) ∧
    SkillVerifier.get_gemini_response_over env (m :: rest) prompt = (.ok t, 1) ∧
    CVGenerator.get_gemini_response_over env (m :: rest) prompt = (.ok t, 1) := by
  refine ⟨?_, ?_, ?_⟩ <;>
    simp [GapEngine.generate_safe_over, SkillVerifier.get_gemini_response_over,
      CVGenerator.get_gemini_response_over, tryModels, h0]

/-- C3 amended claim witness: a whitespace-only first response. -/
theorem first_response_returned_verbatim_witness :
    GapEngine.generate_safe_over (fun _ => CallOutcome.success " ")
        ("models/gemini-2.0-flash-lite" :: ["models/gemini-2.0-flash"]) "p"
      = (.ok " ", 1) ∧
    SkillVerifier.get_gemini_response_over (fun _ => CallOutcome.success " ")
        ("models/gemini-2.0-flash-lite" :: ["models/gemini-2.0-flash"]) "p"
      = (.ok " ", 1) ∧
    CVGenerator.get_gemini_response_over (fun _ => CallOutcome.success " ")
        ("models/gemini-2.0-flash-lite" :: ["models/gemini-2.0-flash"]) "p"
      = (.ok " ", 1) :=
  first_response_returned_verbatim (fun _ => CallOutcome.success " ")
    "models/gemini-2.0-flash-lite" ["models/gemini-2.0-flash"] "p" " " rfl

/-! # Claims about document extraction -/

/-- C4: for every file system and input path, document extraction (the
reader node followed by the minimum-content guard) (1) only succeeds with
non-empty text of at least 50 characters, (2) fails with the
unsupported-format error for any extension other than `.pdf`/`.txt`, and
(3) fails with the empty-content error whenever the reader produced text of
fewer than 50 characters. -/
theorem document_extract_never_empty_success (fs : FileSys) (path : String) :
    (∀ t, NlpAnalyzer.document_extract fs path = .ok t →
      t ≠ "" ∧ 50 ≤ t.length) ∧
    (pyEndsWith (pyLower path) ".txt" = false → pyEndsWith (pyLower path) ".pdf" = false →
      NlpAnalyzer.document_extract fs path = .error .unsupportedFormat) ∧
    (∀ upd t, NlpAnalyzer.cv_reader_node fs
        { GapState.empty with cv_file_path := some path } = .ok upd →
      upd.cv_text = some t → t.length < 50 →
      NlpAnalyzer.document_extract fs path = .error .emptyContent) := by
  refine ⟨?_, ?_, ?_⟩
  · intro t h
    unfold NlpAnalyzer.document_extract at h
    cases hr : NlpAnalyzer.cv_reader_node fs
        { GapState.empty with cv_file_path := some path } with
    | error e => rw [hr] at h; simp at h
    | ok upd =>
      rw [hr] at h
      cases hc : upd.cv_text with
      | none => simp [hc] at h
      | some t0 =>
        simp only [hc] at h
        unfold NlpAnalyzer.cvTextGuard at h
        by_cases hcond : t0 = "" ∨ (pyStrip t0).length < 50
        · rw [if_pos hcond] at h
          simp at h
        · rw [if_neg hcond] at h
          simp only [Except.ok.injEq] at h
          have hne : t0 ≠ "" := fun he => hcond (Or.inl he)
          have hlt : ¬ (pyStrip t0).length < 50 := fun hl => hcond (Or.inr hl)
          rw [← h]
          exact ⟨hne, le_trans (Nat.le_of_not_lt hlt) (pyStrip_length_le t0)⟩
  · intro h1 h2
    simp [NlpAnalyzer.document_extract, NlpAnalyzer.cv_reader_node, h1, h2]
  · intro upd t hr hc hlen
    unfold NlpAnalyzer.document_extract
    rw [hr]
    simp only [hc]
    have hs : (pyStrip t).length < 50 :=
      lt_of_le_of_lt (pyStrip_length_le t) hlen
    unfold NlpAnalyzer.cvTextGuard
    rw [if_pos (Or.inr hs)]

/-- A fixed file system for the C4 witness: every `.txt` read yields a
9-character text, every PDF read fails. -/
def witnessFs : FileSys :=
  ⟨fun _ => some "short cv.", fun _ => none⟩

/-- A fixed file system whose `.txt` reads yield a 62-character text. -/
def witnessFsLong : FileSys :=
  ⟨fun _ => some "Senior engineer with ten years of Python and Go experience....", fun _ => none⟩

/-- C4 witness: a `.docx` path hits the unsupported-format error, a short
`.txt` hits the empty-content error, a long `.txt` succeeds with text of
length at least 50. -/
theorem document_extract_never_empty_success_witness :
    NlpAnalyzer.document_extract witnessFs "cv.docx" = .error .unsupportedFormat ∧
    NlpAnalyzer.document_extract witnessFs "cv.txt" = .error .emptyContent ∧
    ("Senior engineer with ten years of Python and Go experience...." ≠ "" ∧
      50 ≤ ("Senior engineer with ten years of Python and Go experience....").length) :=
  ⟨(document_extract_never_empty_success witnessFs "cv.docx").2.1 (by decide) (by decide),
   (document_extract_never_empty_success witnessFs "cv.txt").2.2
     { GapState.empty with cv_text := some "short cv." } "short cv."
     (by rfl) rfl (by decide),
   (document_extract_never_empty_success witnessFsLong "cv.txt").1
     "Senior engineer with ten years of Python and Go experience...." (by rfl)⟩

/-! # Claims about the structured extractor -/

/-- C5 counterexample: when `json.loads` succeeds on a model output that
is the empty JSON object, `extract_structured_data` returns that object
as-is — the resulting profile lacks the `skills` (and every other)
list-typed field entirely. -/
theorem parsed_profile_can_lack_list_fields :
    CVGenerator.extract_structured_data (fun _ => CallOutcome.success "\x7b\x7d")
        (fun _ => some (Json.obj [])) "cv text" = Json.obj [] ∧
    hasKey ([] : List (String × Json)) "skills" = false := by
  constructor
  · rfl
  · rfl

/-- C5 amended: schema completion never happens on the success path — the
profile returned for a successfully parsed model output is exactly the
parsed JSON value (omitted list fields stay absent); only the fallback
record returned when the gateway call or the parse fails carries all five
list-typed fields, each present and empty. -/
theorem structured_extractor_passthrough_and_fallback
    (env : Nat → CallOutcome) (parse : String → Option Json)
    (cv_text raw : String) (j : Json)
    (hresp : (CVGenerator.get_gemini_response env
        (CVGenerator.cvStructuringPrompt cv_text)).1 = .ok raw)
    (hparse : parse (stripFences raw) = some j) :
    CVGenerator.extract_structured_data env parse cv_text = j ∧
    (∀ k, k ∈ ["skills", "education", "experience", "projects", "leadership"] →
      (match CVGenerator.fallbackProfile with
       | Json.obj fields => getKey fields k
       | _ => none) = some (Json.arr [])) := by
  constructor
  · unfold CVGenerator.extract_structured_data
    rw [hresp]
    simp only []
    rw [hparse]
  · intro k hk
    fin_cases hk <;> rfl

/-- C5 amended claim witness. -/
theorem structured_extractor_passthrough_and_fallback_witness :
    CVGenerator.extract_structured_data (fun _ => CallOutcome.success "\x7b\x7d")
        (fun _ => some (Json.obj [("name", Json.str "A")])) "cv text"
      = Json.obj [("name", Json.str "A")] ∧
    (∀ k, k ∈ ["skills", "education", "experience", "projects", "leadership"] →
      (match CVGenerator.fallbackProfile with
       | Json.obj fields => getKey fields k
       | _ => none) = some (Json.arr [])) :=
  structured_extractor_passthrough_and_fallback
    (fun _ => CallOutcome.success "\x7b\x7d")
    (fun _ => some (Json.obj [("name", Json.str "A")]))
    "cv text" "\x7b\x7d" (Json.obj [("name", Json.str "A")]) rfl rfl

/-! # Claims about the workflow nodes -/

/-- C6 counterexample: `generate_job_requirements_node` mutates and
returns the whole shared state — the record it returns still contains the
`job_title` and `cv_text` fields it did not compute, so it is not a
partial-update record containing only the node's own field. -/
theorem job_requirements_node_returns_full_state :
    (GapEngine.generate_job_requirements_node (fun _ => CallOutcome.success "req")
        { GapState.empty with job_title := some "Backend Engineer",
                              cv_text := some "cv body" }).map GapState.job_title
      = .ok (some "Backend Engineer") ∧
    (GapEngine.generate_job_requirements_node (fun _ => CallOutcome.success "req")
        { GapState.empty with job_title := some "Backend Engineer",
                              cv_text := some "cv body" }).map GapState.cv_text
      = .ok (some "cv body") := by
  constructor
  · rfl
  · rfl

/-- C6 amended: `cv_reader_node` does return a partial update holding only
its own `cv_text` field (every other field of the returned record is
absent), but `generate_job_requirements_node` returns the full mutated
state rather than a partial update; in both cases every field other than
the node's own keeps exactly the value it has in the input state. -/
theorem node_updates_frame (fs : FileSys) (env : Nat → CallOutcome)
    (st : GapState) :
    (∀ upd, NlpAnalyzer.cv_reader_node fs st = .ok upd →
      upd.cv_file_path = none ∧ upd.job_title = none ∧
      upd.job_requirements = none ∧ upd.skill_report = none ∧
      upd.pdf_path = none ∧ upd.structured_cv_data = none ∧
      upd.user_name = none ∧ upd.new_skills_to_add = none ∧
      upd.skills_for_roadmap = none ∧ upd.template_selection = none ∧
      upd.final_cv_tex_path = none) ∧
    (∀ st2, GapEngine.generate_job_requirements_node env st = .ok st2 →
      st2.cv_file_path = st.cv_file_path ∧ st2.job_title = st.job_title ∧
      st2.cv_text = st.cv_text ∧ st2.skill_report = st.skill_report ∧
      st2.pdf_path = st.pdf_path ∧
      st2.structured_cv_data = st.structured_cv_data ∧
      st2.user_name = st.user_name ∧
      st2.new_skills_to_add = st.new_skills_to_add ∧
      st2.skills_for_roadmap = st.skills_for_roadmap ∧
      st2.template_selection = st.template_selection ∧
      st2.final_cv_tex_path = st.final_cv_tex_path) := by
  constructor
  · intro upd h
    unfold NlpAnalyzer.cv_reader_node at h
    cases hp : st.cv_file_path <;> simp only [hp] at h
    case none => exact absurd h (by simp)
    case some path =>
    split_ifs at h
    · cases ht : fs.txt path <;> simp only [ht] at h
      · exact absurd h (by simp)
      · simp only [Except.ok.injEq] at h
        rw [← h]
        simp [GapState.empty]
    · cases hpdf : fs.pdf path <;> simp only [hpdf] at h
      · exact absurd h (by simp)
      · split_ifs at h <;>
          first
            | (simp only [Except.ok.injEq] at h
               rw [← h]
               simp [GapState.empty])
            | simp at h
  · intro st2 h
    unfold GapEngine.generate_job_requirements_node at h
    cases hp : st.job_title <;> simp only [hp] at h
    case none => exact absurd h (by simp)
    case some title =>
    cases hg : (GapEngine.generate_safe env (GapEngine.jobReqPrompt title)).1 <;>
      simp only [hg] at h
    · exact absurd h (by simp)
    · simp only [Except.ok.injEq] at h
      rw [← h]
      simp

/-- C6 amended claim witness. -/
theorem node_updates_frame_witness :
    ({ GapState.empty with cv_text := some "short cv." } : GapState).job_title
        = none ∧
    ({ GapState.empty with
        cv_file_path := some "cv.txt",
        job_title := some "Backend Engineer",
        job_requirements := some (pyStrip "req") } : GapState).cv_text
      = ({ GapState.empty with
          cv_file_path := some "cv.txt",
          job_title := some "Backend Engineer" } : GapState).cv_text := by
  have h := node_updates_frame witnessFs (fun _ => CallOutcome.success "req")
    { GapState.empty with
      cv_file_path := some "cv.txt",
      job_title := some "Backend Engineer" }
  exact ⟨(h.1 _ rfl).2.1, (h.2 _ rfl).2.2.1⟩

/-! # Claims about the interactive verifier -/

/-- C7: skills sourced from a rendered report PDF are capped at the first
4 — (1) the extractor never returns more than 4 skills, and (2) a concrete
report page listing 5 bullet skills yields exactly the first 4 — while (3)
a missing-skill list supplied directly to `generate_questions` is not
capped: the single gateway call's parsed response is returned whole, and
(4) on a concrete run with 5 direct skills and a model answering one
question per skill, all 5 questions come back. -/
theorem skill_cap_applies_only_to_pdf_source :
    (∀ (pathExists : Bool) (pages : Option (List (Option String))),
      (SkillVerifier.extract_missing_skills_from_pdf pathExists pages).length ≤ 4) ∧
    (SkillVerifier.extract_missing_skills_from_pdf true
        (some [some "Missing Skills\n- Kubernetes\n- Terraform\n- GraphQL\n- Rust\n- Haskell"])
      = ["Kubernetes", "Terraform", "GraphQL", "Rust"]) ∧
    (∀ (env : Nat → CallOutcome) (parse : String → Option Json)
        (missing : List String) (qs : List Json) (raw : String),
      missing ≠ [] →
      (SkillVerifier.get_gemini_response env
          (SkillVerifier.questionPrompt missing)).1 = .ok raw →
      raw ≠ "" →
      parse (stripFences raw) = some (Json.arr qs) →
      SkillVerifier.generate_questions env parse missing = Json.arr qs) ∧
    (SkillVerifier.generate_questions (fun _ => CallOutcome.success "resp")
        (fun _ => some (Json.arr [Json.str "q1", Json.str "q2", Json.str "q3",
          Json.str "q4", Json.str "q5"]))
        ["Figma", "SQL", "Rust", "Go", "Docker"]
      = Json.arr [Json.str "q1", Json.str "q2", Json.str "q3", Json.str "q4",
          Json.str "q5"]) := by
  refine ⟨?_, by decide, ?_, by rfl⟩
  · intro pathExists pages
    unfold SkillVerifier.extract_missing_skills_from_pdf
    cases pathExists
    · simp
    · cases pages with
      | none => simp
      | some ps =>
        cases hs : allSome ps with
        | none => simp [hs]
        | some texts =>
          simp [hs, List.length_take] <;> omega
  · intro env parse missing qs raw hne hresp hraw hparse
    unfold SkillVerifier.generate_questions
    rw [if_neg (by simpa using hne)]
    rw [hresp]
    simp only []
    rw [if_neg hraw, hparse]

/-- C7 witness (for the hypotheses of the no-cap conjunct). -/
theorem skill_cap_applies_only_to_pdf_source_witness :
    SkillVerifier.generate_questions (fun _ => CallOutcome.success "out")
        (fun _ => some (Json.arr [Json.str "a", Json.str "b", Json.str "c",
          Json.str "d", Json.str "e", Json.str "f"]))
        ["S1", "S2", "S3", "S4", "S5"]
      = Json.arr [Json.str "a", Json.str "b", Json.str "c", Json.str "d",
          Json.str "e", Json.str "f"] :=
  (skill_cap_applies_only_to_pdf_source).2.2.1
    (fun _ => CallOutcome.success "out")
    (fun _ => some (Json.arr [Json.str "a", Json.str "b", Json.str "c",
      Json.str "d", Json.str "e", Json.str "f"]))
    ["S1", "S2", "S3", "S4", "S5"]
    [Json.str "a", Json.str "b", Json.str "c", Json.str "d", Json.str "e",
      Json.str "f"]
    "out" (by decide) rfl (by decide) rfl

/-! # Claims about skill injection -/

/-- No two entries of the list are equal after Python lower-casing. -/
abbrev ciNodup (l : List String) : Prop :=
  (l.map pyLower).Nodup

theorem asStrList_map_str : ∀ (l : List String),
    asStrList (l.map Json.str) = some l := by
  intro l
  induction l with
  | nil => rfl
  | cons s rest ih => simp [asStrList, ih]

theorem setKey_getKey_self : ∀ (d : List (String × Json)) (k : String) (v : Json),
    getKey d k = some v → setKey d k v = d := by
  intro d
  induction d with
  | nil => intro k v h; simp [getKey] at h
  | cons kv rest ih =>
    intro k v h
    obtain ⟨k2, w⟩ := kv
    by_cases hk : k2 = k
    · subst hk
      simp only [getKey] at h
      rw [if_pos trivial] at h
      simp only [Option.some.injEq] at h
      simp only [setKey]
      rw [if_pos trivial]
      rw [h]
    · simp only [getKey, if_neg hk] at h
      simp only [setKey, if_neg hk]
      rw [ih k v h]

/-- C8 counterexample: the dedup list `current_skills_lower` is computed
once, before the injection loop, so injecting the batch `["Go", "GO"]` into
a profile whose skills list is empty (trivially deduplicated) appends both
spellings — the resulting skills list contains two case-insensitively
equal entries. -/
theorem inject_batch_can_create_ci_duplicates :
    CVGenerator.inject_missing_skills [("skills", Json.arr [])] ["Go", "GO"]
      = some [("skills", Json.arr [Json.str "Go", Json.str "GO"])] ∧
    ¬ ciNodup ["Go", "GO"] := by
  constructor
  · rfl
  · decide

/-- C8 amended: new skills are deduplicated only against the skills
already present before the batch, so the invariant is preserved exactly
when the batch itself also contains no two case-insensitively equal
entries: under that extra hypothesis the injected skills list is again
free of case-insensitively equal pairs. -/
theorem inject_preserves_ci_nodup (skills new_skills : List String)
    (hs : ciNodup skills) (hn : ciNodup new_skills) :
    CVGenerator.inject_missing_skills
        [("skills", Json.arr (skills.map Json.str))] new_skills
      = some [("skills",
          Json.arr ((CVGenerator.injectedSkills skills new_skills).map Json.str))] ∧
    ciNodup (CVGenerator.injectedSkills skills new_skills) := by
  constructor
  · unfold CVGenerator.inject_missing_skills
    cases hne : new_skills.isEmpty
    · simp only [Bool.false_eq_true, if_false]
      simp [hasKey, getKey, setKey, jsonStrList, asStrList_map_str]
    · have hnil : new_skills = [] := by
        cases new_skills
        · rfl
        · simp [List.isEmpty] at hne
      subst hnil
      simp [CVGenerator.injectedSkills]
  · unfold ciNodup CVGenerator.injectedSkills
    simp only [List.map_append]
    rw [List.nodup_append]
    refine ⟨hs, ?_, ?_⟩
    · exact hn.sublist ((List.filter_sublist new_skills).map pyLower)
    · intro x hx hx2
      rcases List.mem_map.mp hx2 with ⟨s, hsmem, rfl⟩
      rcases List.mem_filter.mp hsmem with ⟨_, hcond⟩
      simp only [Bool.not_eq_true'] at hcond
      simp only [List.contains] at hcond
      rcases List.mem_map.mp hx with ⟨s0, hs0, heq⟩
      have : pyLower s ∈ List.map pyLower skills := hx
      simp only [List.elem_eq_mem, decide_eq_false_iff_not] at hcond
      exact hcond this

/-- C8 amended claim witness. -/
theorem inject_preserves_ci_nodup_witness :
    CVGenerator.inject_missing_skills
        [("skills", Json.arr (["Python"].map Json.str))] ["Go", "SQL"]
      = some [("skills",
          Json.arr ((CVGenerator.injectedSkills ["Python"] ["Go", "SQL"]).map Json.str))] ∧
    ciNodup (CVGenerator.injectedSkills ["Python"] ["Go", "SQL"]) :=
  inject_preserves_ci_nodup ["Python"] ["Go", "SQL"] (by decide) (by decide)

/-- C9: injecting a single skill that is already present in the profile's
skills list under case-insensitive comparison returns the profile dict
unchanged — in particular the skills list keeps its length. -/
theorem inject_existing_skill_keeps_length (d : List (String × Json))
    (skills : List String) (s : String)
    (hget : getKey d "skills" = some (Json.arr (skills.map Json.str)))
    (hmem : (skills.map pyLower).contains (pyLower s) = true) :
    CVGenerator.inject_missing_skills d [s] = some d ∧
    (CVGenerator.injectedSkills skills [s]).length = skills.length := by
  have hinj : CVGenerator.injectedSkills skills [s] = skills := by
    unfold CVGenerator.injectedSkills
    simp only [List.filter_cons, hmem, Bool.not_true, Bool.false_eq_true, if_false,
      List.filter_nil, List.append_nil]
  have hhk : hasKey d "skills" = true := by simp [hasKey, hget]
  constructor
  · unfold CVGenerator.inject_missing_skills
    simp only [List.isEmpty_cons, Bool.false_eq_true, if_false, hhk, if_true, hget,
      Option.some_bind, jsonStrList, asStrList_map_str, hinj]
    rw [setKey_getKey_self d "skills" _ hget]
  · rw [hinj]

/-- C9 witness. -/
theorem inject_existing_skill_keeps_length_witness :
    CVGenerator.inject_missing_skills
        [("skills", Json.arr (["Python", "Go"].map Json.str))] ["gO"]
      = some [("skills", Json.arr (["Python", "Go"].map Json.str))] ∧
    (CVGenerator.injectedSkills ["Python", "Go"] ["gO"]).length
      = (["Python", "Go"] : List String).length :=
  inject_existing_skill_keeps_length
    [("skills", Json.arr (["Python", "Go"].map Json.str))]
    ["Python", "Go"] "gO" rfl (by decide)

/-! # Claim about the roadmap generator node -/

/-- C10: `generator_node` is total over its modelled failure modes and
always returns a partial update whose only field is `final_roadmap_json`:
when the model call raises, that field is the `{"error": str(e)}` object;
when the call succeeds and the fence-stripped response parses as JSON, it
is the parsed roadmap; when parsing fails, it is again the error object —
the roadmap workflow never aborts at the generation stage. -/
theorem generator_node_total_roadmap_or_error
    (callModel : String → Except String String)
    (parse : String → Except String Json) (st : RoadmapMvp.RoadmapState) :
    (∀ e, callModel (RoadmapMvp.roadmapPrompt (st.skills_to_learn.getD [])
          (st.raw_search_data.getD (Json.obj []))) = .error e →
      RoadmapMvp.generator_node callModel parse st
        = { final_roadmap_json := Json.obj [("error", Json.str e)] }) ∧
    (∀ t j, callModel (RoadmapMvp.roadmapPrompt (st.skills_to_learn.getD [])
          (st.raw_search_data.getD (Json.obj []))) = .ok t →
      parse (RoadmapMvp.cleanRoadmapFences t) = .ok j →
      RoadmapMvp.generator_node callModel parse st = { final_roadmap_json := j }) ∧
    (∀ t e, callModel (RoadmapMvp.roadmapPrompt (st.skills_to_learn.getD [])
          (st.raw_search_data.getD (Json.obj []))) = .ok t →
      parse (RoadmapMvp.cleanRoadmapFences t) = .error e →
      RoadmapMvp.generator_node callModel parse st
        = { final_roadmap_json := Json.obj [("error", Json.str e)] }) := by
  refine ⟨?_, ?_, ?_⟩
  · intro e hcall
    unfold RoadmapMvp.generator_node
    simp only []
    rw [hcall]
  · intro t j hcall hparse
    unfold RoadmapMvp.generator_node
    simp only []
    rw [hcall]
    simp only []
    rw [hparse]
  · intro t e hcall hparse
    unfold RoadmapMvp.generator_node
    simp only []
    rw [hcall]
    simp only []
    rw [hparse]

/-- C10 witness: a failing model call yields the error object; a
successful call with a parsable response yields the parsed roadmap. -/
theorem generator_node_total_roadmap_or_error_witness :
    RoadmapMvp.generator_node (fun _ => .error "quota")
        (fun _ => .ok (Json.obj [])) ⟨some ["SQL"], none, none⟩
      = { final_roadmap_json := Json.obj [("error", Json.str "quota")] } ∧
    RoadmapMvp.generator_node (fun _ => .ok "out")
        (fun _ => .ok (Json.obj [("roadmap_title", Json.str "T")]))
        ⟨some ["SQL"], none, none⟩
      = { final_roadmap_json := Json.obj [("roadmap_title", Json.str "T")] } :=
  ⟨(generator_node_total_roadmap_or_error (fun _ => .error "quota")
      (fun _ => .ok (Json.obj [])) ⟨some ["SQL"], none, none⟩).1 "quota" rfl,
   (generator_node_total_roadmap_or_error (fun _ => .ok "out")
      (fun _ => .ok (Json.obj [("roadmap_title", Json.str "T")]))
      ⟨some ["SQL"], none, none⟩).2.1 "out"
      (Json.obj [("roadmap_title", Json.str "T")]) rfl rfl⟩
